import Mathlib

/-!
Verification of the wayflutter embedder integration layer.

This file gives a shallow embedding of the parts of the program relevant to
its specified behavior:

* `src/task_runner.rs` — the cooperative task scheduler (`run_task_runner`):
  the receiving loop that either runs a due task immediately or pushes it
  into a min-priority queue (sending a wake notification when the new task
  is strictly earlier than every queued one), and the executing loop that
  drains due tasks in deadline order.  The engine clock, loop wakeups and
  channel deliveries become an explicit event list interpreted by a step
  function over a `RunnerState`.
* `src/compositor.rs` — the layer-surface configure handler and the view
  registry built by `Compositor::init`.
* `src/compositor/callback.rs` — `create_backing_store_callback`,
  `collect_backing_store_callback` and `present_view_callback`.  GPU calls
  become an explicit action trace; GL object names become natural numbers
  dispensed by per-namespace counters; fallible EGL operations take their
  success as a boolean parameter; `f64` geometry from the engine is modelled
  by `ℚ` and `f64::to_int_unchecked` by truncating integer division.
-/

/-! ## Task runner (`src/task_runner.rs`) -/

/-- `PendingTask` from `task_runner.rs`: an opaque task handle (here an
identifier) plus its target timestamp in engine-clock nanoseconds. -/
structure PendingTask where
  id : Nat
  target : Nat
deriving DecidableEq

/-- A record of one `FlutterEngineRunTask` call: which task ran, its target
timestamp, the engine-clock time at which it ran, and whether it ran from the
executing loop's queue drain (`fromQueue = true`) or from the receiving
loop's immediate path (`fromQueue = false`). -/
structure ExecRec where
  id : Nat
  target : Nat
  execTime : Nat
  fromQueue : Bool
deriving DecidableEq

/-- State of `run_task_runner`: the engine clock, the `BinaryHeap` of pending
tasks (modelled as a list sorted by ascending target, head = earliest), the
trace of executed tasks, whether the `earlier_task_pushed` channel holds a
notification, and the deadline of the timer the executing loop computed at
its last iteration (`none` models the `u64::MAX` "sleep forever" delay). -/
structure RunnerState where
  now : Nat
  queue : List PendingTask
  executed : List ExecRec
  notified : Bool
  sleepDeadline : Option Nat
deriving DecidableEq

/-- Insertion into the priority-queue model, keeping the list sorted by
ascending target (ties keep insertion order; `BinaryHeap` breaks ties
arbitrarily). -/
def insertByTarget (t : PendingTask) : List PendingTask → List PendingTask
  | [] => [t]
  | u :: us => if t.target < u.target then t :: u :: us else u :: insertByTarget t us

/-- One iteration of the receiving loop of `run_task_runner` on an incoming
task: `delay = target.saturating_sub(now)`; if `delay == 0` the task is run
immediately via `FlutterEngineRunTask`, otherwise it is pushed, and the
`earlier_task_pushed` notification is sent when the heap was empty or the
previous minimum had a strictly larger target. -/
def submitStep (s : RunnerState) (id target : Nat) : RunnerState :=
  if target ≤ s.now then
    { s with executed := s.executed ++ [⟨id, target, s.now, false⟩] }
  else
    let earlier : Bool :=
      match s.queue with
      | [] => true
      | u :: _ => target < u.target
    { s with
        queue := insertByTarget ⟨id, target⟩ s.queue
        notified := s.notified || earlier }

/-- The drain loop at the top of the executing loop of `run_task_runner`:
pop and run every task at the head of the queue whose target is at or before
`now`; stop at the first task that is still in the future.  Returns the
remaining queue and the executions performed, in order. -/
def drainQueue (now : Nat) : List PendingTask → List PendingTask × List ExecRec
  | [] => ([], [])
  | t :: rest =>
    if t.target ≤ now then
      let p := drainQueue now rest
      (p.1, ⟨t.id, t.target, now, true⟩ :: p.2)
    else (t :: rest, [])

/-- One full iteration of the executing loop: drain due tasks, then recompute
the wait (`next target - now`, i.e. a timer deadline equal to the earliest
queued target, or forever when empty) and re-arm the select, consuming any
pending wake notification. -/
def wakeStep (s : RunnerState) : RunnerState :=
  let p := drainQueue s.now s.queue
  { s with
      queue := p.1
      executed := s.executed ++ p.2
      notified := false
      sleepDeadline := p.1.head?.map (fun t => t.target) }

/-- The engine clock (`FlutterEngineGetCurrentTime`) advancing by `d`
nanoseconds. -/
def advanceStep (s : RunnerState) (d : Nat) : RunnerState :=
  { s with now := s.now + d }

/-- Environment events driving `run_task_runner`: a task submission arriving
on the channel, the executing loop waking (timer elapsed or notification),
or the engine clock advancing. -/
inductive RunnerEvent where
  | submit (id target : Nat)
  | wake
  | advance (d : Nat)
deriving DecidableEq

/-- Interpret one event. -/
def runnerStep (s : RunnerState) : RunnerEvent → RunnerState
  | .submit id target => submitStep s id target
  | .wake => wakeStep s
  | .advance d => advanceStep s d

/-- Interpret a whole event sequence. -/
def runEvents (evs : List RunnerEvent) (s : RunnerState) : RunnerState :=
  evs.foldl runnerStep s

/-- Initial state of `run_task_runner`: clock at 0, empty heap, nothing
executed, no pending notification, sleeping forever. -/
def initRunnerState : RunnerState :=
  { now := 0, queue := [], executed := [], notified := false, sleepDeadline := none }

/-- The target timestamps of the executions that came out of the priority
queue (the executing loop), in execution order. -/
def queueExecTargets (l : List ExecRec) : List Nat :=
  (l.filter (fun r => r.fromQueue)).map (fun r => r.target)

/-- The executing loop's select is ready to run without any further clock
advance: either the wake notification is pending or the timer deadline has
already been reached. -/
def wakeEnabled (s : RunnerState) : Prop :=
  s.notified = true ∨ ∃ d, s.sleepDeadline = some d ∧ d ≤ s.now

/-! ### Helper lemmas about the queue model -/

theorem mem_insertByTarget {x t : PendingTask} :
    ∀ {l : List PendingTask}, x ∈ insertByTarget t l ↔ x = t ∨ x ∈ l := by
  intro l
  induction l with
  | nil => simp [insertByTarget]
  | cons u us ih =>
    by_cases h : t.target < u.target
    · simp only [insertByTarget, if_pos h, List.mem_cons]
    · simp only [insertByTarget, if_neg h, List.mem_cons, ih]
      tauto

theorem pairwise_insertByTarget {t : PendingTask} :
    ∀ {l : List PendingTask},
      List.Pairwise (fun a b => a.target ≤ b.target) l →
      List.Pairwise (fun a b => a.target ≤ b.target) (insertByTarget t l) := by
  intro l
  induction l with
  | nil => intro _; simp [insertByTarget]
  | cons u us ih =>
    intro hp
    rcases List.pairwise_cons.mp hp with ⟨hu, hus⟩
    by_cases h : t.target < u.target
    · simp only [insertByTarget, if_pos h]
      refine List.pairwise_cons.mpr ⟨?_, hp⟩
      intro x hx
      rcases List.mem_cons.mp hx with rfl | hx
      · exact Nat.le_of_lt h
      · exact Nat.le_trans (Nat.le_of_lt h) (hu x hx)
    · simp only [insertByTarget, if_neg h]
      refine List.pairwise_cons.mpr ⟨?_, ih hus⟩
      intro x hx
      rcases mem_insertByTarget.mp hx with rfl | hx
      · exact Nat.le_of_not_lt h
      · exact hu x hx

theorem drainQueue_spec (now : Nat) :
    ∀ l : List PendingTask,
      ∃ pre, l = pre ++ (drainQueue now l).1 ∧
        (drainQueue now l).2 = pre.map (fun t => ⟨t.id, t.target, now, true⟩) ∧
        ∀ t ∈ pre, t.target ≤ now := by
  intro l
  induction l with
  | nil => exact ⟨[], by simp [drainQueue]⟩
  | cons t rest ih =>
    by_cases h : t.target ≤ now
    · rcases ih with ⟨pre, h1, h2, h3⟩
      refine ⟨t :: pre, ?_, ?_, ?_⟩
      · simpa [drainQueue, h] using congrArg (t :: ·) h1
      · simp [drainQueue, h, h2]
      · intro u hu
        rcases List.mem_cons.mp hu with rfl | hu
        · exact h
        · exact h3 u hu
    · exact ⟨[], by simp [drainQueue, h]⟩

/-! ### The ordering invariant of the task runner -/

/-- Invariant maintained by every step of the task runner:
the queue is sorted by target; every queue-executed record ran at or before
the current clock; the queue-executed targets are already in nondecreasing
order; and every queue-executed target is at most every still-queued
target. -/
def RunnerInv (s : RunnerState) : Prop :=
  List.Pairwise (fun a b => a.target ≤ b.target) s.queue ∧
  (∀ r ∈ s.executed, r.fromQueue = true → r.target ≤ s.now) ∧
  List.Pairwise (· ≤ ·) (queueExecTargets s.executed) ∧
  (∀ r ∈ s.executed, r.fromQueue = true → ∀ t ∈ s.queue, r.target ≤ t.target)

theorem queueExecTargets_append (l₁ l₂ : List ExecRec) :
    queueExecTargets (l₁ ++ l₂) = queueExecTargets l₁ ++ queueExecTargets l₂ := by
  simp [queueExecTargets]

theorem mem_queueExecTargets {a : Nat} {l : List ExecRec} :
    a ∈ queueExecTargets l ↔ ∃ r ∈ l, r.fromQueue = true ∧ r.target = a := by
  simp only [queueExecTargets, List.mem_map, List.mem_filter]
  constructor
  · rintro ⟨r, ⟨hr, hq⟩, rfl⟩
    exact ⟨r, hr, by simpa using hq, rfl⟩
  · rintro ⟨r, hr, hq, rfl⟩
    exact ⟨r, ⟨hr, by simpa using hq⟩, rfl⟩

theorem queueExecTargets_map_mk (now : Nat) (pre : List PendingTask) :
    queueExecTargets (pre.map (fun t => ⟨t.id, t.target, now, true⟩)) =
      pre.map (fun t => t.target) := by
  induction pre with
  | nil => simp [queueExecTargets]
  | cons t rest ih =>
    simp only [List.map_cons, queueExecTargets, List.filter_cons] at *
    simpa using ih

theorem runnerInv_init : RunnerInv initRunnerState := by
  refine ⟨?_, ?_, ?_, ?_⟩ <;> simp [initRunnerState, queueExecTargets]

theorem runnerInv_submit (s : RunnerState) (id target : Nat) :
    RunnerInv s → RunnerInv (submitStep s id target) := by
  rintro ⟨hq, hle, hsorted, hcross⟩
  by_cases h : target ≤ s.now
  · refine ⟨?_, ?_, ?_, ?_⟩ <;> simp only [submitStep, if_pos h]
    · exact hq
    · intro r hr hrq
      rcases List.mem_append.mp hr with hr | hr
      · exact hle r hr hrq
      · simp at hr; subst hr; simp at hrq
    · rw [queueExecTargets_append]
      have : queueExecTargets [(⟨id, target, s.now, false⟩ : ExecRec)] = [] := by
        simp [queueExecTargets]
      rw [this, List.append_nil]
      exact hsorted
    · intro r hr hrq t ht
      rcases List.mem_append.mp hr with hr | hr
      · exact hcross r hr hrq t ht
      · simp at hr; subst hr; simp at hrq
  · refine ⟨?_, ?_, ?_, ?_⟩ <;> simp only [submitStep, if_neg h]
    · exact pairwise_insertByTarget hq
    · exact hle
    · exact hsorted
    · intro r hr hrq t ht
      rcases mem_insertByTarget.mp ht with rfl | ht
      · exact Nat.le_trans (hle r hr hrq) (Nat.le_of_lt (Nat.lt_of_not_le h))
      · exact hcross r hr hrq t ht

theorem runnerInv_advance (s : RunnerState) (d : Nat) :
    RunnerInv s → RunnerInv (advanceStep s d) := by
  rintro ⟨hq, hle, hsorted, hcross⟩
  refine ⟨hq, ?_, hsorted, hcross⟩
  intro r hr hrq
  exact Nat.le_trans (hle r hr hrq) (Nat.le_add_right _ _)

theorem runnerInv_wake (s : RunnerState) :
    RunnerInv s → RunnerInv (wakeStep s) := by
  rintro ⟨hq, hle, hsorted, hcross⟩
  rcases drainQueue_spec s.now s.queue with ⟨pre, hsplit, hexec, hdue⟩
  have hq' : List.Pairwise (fun a b => a.target ≤ b.target)
      (pre ++ (drainQueue s.now s.queue).1) := by rwa [← hsplit]
  rcases List.pairwise_append.mp hq' with ⟨hpre, hrest, hcross2⟩
  refine ⟨?_, ?_, ?_, ?_⟩
  · exact hrest
  · intro r hr hrq
    simp only [wakeStep] at hr
    rcases List.mem_append.mp hr with hr | hr
    · exact hle r hr hrq
    · rw [hexec] at hr
      rcases List.mem_map.mp hr with ⟨t, _, rfl⟩
      exact hdue t (by assumption)
  · show List.Pairwise (· ≤ ·) (queueExecTargets (s.executed ++ (drainQueue s.now s.queue).2))
    rw [queueExecTargets_append]
    refine List.pairwise_append.mpr ⟨hsorted, ?_, ?_⟩
    · rw [hexec, queueExecTargets_map_mk]
      exact hpre.map _ (fun a b hab => hab)
    · intro a ha b hb
      rcases mem_queueExecTargets.mp ha with ⟨r, hr, hrq, rfl⟩
      rw [hexec, queueExecTargets_map_mk] at hb
      rcases List.mem_map.mp hb with ⟨t, ht, rfl⟩
      exact hcross r hr hrq t (by rw [hsplit]; exact List.mem_append.mpr (Or.inl ht))
  · intro r hr hrq t ht
    simp only [wakeStep] at hr ht
    rcases List.mem_append.mp hr with hr | hr
    · exact hcross r hr hrq t (by rw [hsplit]; exact List.mem_append.mpr (Or.inr ht))
    · rw [hexec] at hr
      rcases List.mem_map.mp hr with ⟨u, hu, rfl⟩
      exact hcross2 u hu t ht

theorem runnerInv_step (s : RunnerState) (ev : RunnerEvent) :
    RunnerInv s → RunnerInv (runnerStep s ev) := by
  cases ev with
  | submit id target => exact runnerInv_submit s id target
  | wake => exact runnerInv_wake s
  | advance d => exact runnerInv_advance s d

theorem runnerInv_runEvents (evs : List RunnerEvent) :
    ∀ s : RunnerState, RunnerInv s → RunnerInv (runEvents evs s) := by
  induction evs with
  | nil => intro s h; exact h
  | cons ev rest ih =>
    intro s h
    exact ih (runnerStep s ev) (runnerInv_step s ev h)

/-! ### Claim theorems about the task runner -/

/-- **C1 (amended).** For every sequence of events (submissions, clock
advances, executing-loop wakeups), the tasks executed out of the priority
queue run in nondecreasing order of target timestamp; and any task whose
target timestamp is at or before the engine clock at submission is executed
immediately in the submission-processing step, without being pushed into the
priority queue.  (Tasks taking the immediate path may run out of timestamp
order relative to other tasks; see the counterexample.) -/
theorem taskRunner_exec_order (evs : List RunnerEvent) :
    List.Pairwise (· ≤ ·) (queueExecTargets (runEvents evs initRunnerState).executed) ∧
    ∀ (s : RunnerState) (id target : Nat), target ≤ s.now →
      submitStep s id target =
        { s with executed := s.executed ++ [⟨id, target, s.now, false⟩] } :=
  ⟨(runnerInv_runEvents evs initRunnerState runnerInv_init).2.2.1,
   fun _ _ _ h => by simp [submitStep, h]⟩

/-- **C1 (counterexample).** The claim as stated is false: a task already due
at submission runs immediately, even when a task with a *smaller* target
timestamp was executed earlier.  Submitting target 120 at clock 150 and then
target 60 at clock 160 executes the targets in the order `[120, 60]`, which
is not nondecreasing. -/
theorem taskRunner_exec_order_cex :
    ((runEvents [.advance 150, .submit 1 120, .advance 10, .submit 2 60]
        initRunnerState).executed.map (fun r => r.target)) = [120, 60] ∧
    ¬ List.Pairwise (· ≤ ·)
      ((runEvents [.advance 150, .submit 1 120, .advance 10, .submit 2 60]
          initRunnerState).executed.map (fun r => r.target)) := by
  constructor
  · rfl
  · decide

/-- Witness for `taskRunner_exec_order`, on the spec's end-to-end scenario
(targets 300, 100, 200 submitted at clock 0) and on an already-due
submission. -/
theorem taskRunner_exec_order_witness :
    List.Pairwise (· ≤ ·)
      (queueExecTargets
        (runEvents
          [.submit 1 300, .submit 2 100, .submit 3 200,
           .advance 100, .wake, .advance 100, .wake, .advance 100, .wake]
          initRunnerState).executed) ∧
    (3 ≤ (5 : Nat) ∧
      submitStep ⟨5, [], [], false, none⟩ 7 3 =
        { now := 5, queue := [], executed := [⟨7, 3, 5, false⟩], notified := false,
          sleepDeadline := none }) :=
  ⟨(taskRunner_exec_order
      [.submit 1 300, .submit 2 100, .submit 3 200,
       .advance 100, .wake, .advance 100, .wake, .advance 100, .wake]).1,
   by decide,
   by exact (taskRunner_exec_order []).2 ⟨5, [], [], false, none⟩ 7 3 (by decide)⟩

/-- **C3.** Submitting a task whose deadline is strictly earlier than every
queued task (or with an empty queue), while the consumer sleeps on a timer
computed from the previous earliest deadline: the wake notification is sent,
the consumer's select becomes ready at the current clock — which is strictly
before the stale deadline — and the recomputed wait uses the new task's
target, without running the new task early. -/
theorem earlierTask_wakes_consumer (s : RunnerState) (id target : Nat)
    (hfuture : s.now < target)
    (hearlier : ∀ t ∈ s.queue, target < t.target)
    (hdeadline : s.sleepDeadline = s.queue.head?.map (fun t => t.target)) :
    (submitStep s id target).notified = true ∧
    wakeEnabled (submitStep s id target) ∧
    (∀ d, s.sleepDeadline = some d → s.now < d) ∧
    (wakeStep (submitStep s id target)).sleepDeadline = some target ∧
    (wakeStep (submitStep s id target)).executed = s.executed := by
  have hnotle : ¬ target ≤ s.now := Nat.not_le.mpr hfuture
  cases hq : s.queue with
  | nil =>
    refine ⟨?_, ?_, ?_, ?_, ?_⟩
    · simp [submitStep, hnotle, hq]
    · exact Or.inl (by simp [submitStep, hnotle, hq])
    · intro d hd
      rw [hdeadline, hq] at hd
      simp at hd
    · simp [wakeStep, submitStep, hnotle, hq, insertByTarget, drainQueue]
    · simp [wakeStep, submitStep, hnotle, hq, insertByTarget, drainQueue]
  | cons u us =>
    have hu : target < u.target := hearlier u (hq ▸ List.mem_cons_self u us)
    refine ⟨?_, ?_, ?_, ?_, ?_⟩
    · simp [submitStep, hnotle, hq, hu]
    · exact Or.inl (by simp [submitStep, hnotle, hq, hu])
    · intro d hd
      rw [hdeadline, hq] at hd
      simp at hd
      exact hd ▸ Nat.lt_trans hfuture hu
    · simp [wakeStep, submitStep, hnotle, hq, insertByTarget, hu, drainQueue]
    · simp [wakeStep, submitStep, hnotle, hq, insertByTarget, hu, drainQueue]

/-- Witness for `earlierTask_wakes_consumer`: clock 10, one queued task with
target 100 (consumer sleeping until 100), new task with target 50. -/
theorem earlierTask_wakes_consumer_witness :
    (10 : Nat) < 50 ∧
    (submitStep ⟨10, [⟨1, 100⟩], [], false, some 100⟩ 2 50).notified = true ∧
    (10 : Nat) < 100 ∧
    (wakeStep (submitStep ⟨10, [⟨1, 100⟩], [], false, some 100⟩ 2 50)).sleepDeadline =
      some 50 ∧
    (wakeStep (submitStep ⟨10, [⟨1, 100⟩], [], false, some 100⟩ 2 50)).executed = [] :=
  ⟨by decide,
   (earlierTask_wakes_consumer ⟨10, [⟨1, 100⟩], [], false, some 100⟩ 2 50
     (by decide) (by decide) (by decide)).1,
   (earlierTask_wakes_consumer ⟨10, [⟨1, 100⟩], [], false, some 100⟩ 2 50
     (by decide) (by decide) (by decide)).2.2.1 100 rfl,
   (earlierTask_wakes_consumer ⟨10, [⟨1, 100⟩], [], false, some 100⟩ 2 50
     (by decide) (by decide) (by decide)).2.2.2.1,
   (earlierTask_wakes_consumer ⟨10, [⟨1, 100⟩], [], false, some 100⟩ 2 50
     (by decide) (by decide) (by decide)).2.2.2.2⟩

/-! ## View registry and resize protocol (`src/compositor.rs`) -/

/-- A view's stored state behind its guard in `FlutterView`: the
`Mutex<(NonZeroSize, bool)>` pair of logical size and should-resize flag. -/
structure ViewSize where
  width : Nat
  height : Nat
  shouldResize : Bool
deriving DecidableEq

/-- Observable actions of the layer-surface configure event listener in
`Compositor::init`. -/
inductive ConfigureAction where
  | metricsUpdate (width height : Nat) (viewId : Int)
  | ackConfigure (serial : Nat)
  | sizeWrite (width height : Nat)
  | terminateSent
deriving DecidableEq

/-- The Configure branch of the layer-surface event listener in
`Compositor::init` for a registered view: when both dimensions are nonzero
it sends a `FlutterWindowMetricsEvent` to the engine (`engineOk` models the
success of `FlutterEngineSendWindowMetricsEvent`; on failure the fatal-error
channel is used and the listener returns), then acknowledges the configure
with its serial, then writes the new size and sets the should-resize flag
under the view's guard.  A zero width or height is ignored entirely. -/
def configureHandler (serial width height : Nat) (viewId : Int) (engineOk : Bool)
    (v : ViewSize) : List ConfigureAction × ViewSize :=
  if width ≠ 0 ∧ height ≠ 0 then
    if engineOk then
      ([.metricsUpdate width height viewId, .ackConfigure serial, .sizeWrite width height],
       { width := width, height := height, shouldResize := true })
    else
      ([.metricsUpdate width height viewId, .terminateSent], v)
  else ([], v)

/-- Recognizers for the configure trace. -/
def isMetricsUpdate : ConfigureAction → Bool
  | .metricsUpdate _ _ _ => true
  | _ => false

def isAckConfigure : ConfigureAction → Bool
  | .ackConfigure _ => true
  | _ => false

def isSizeWrite : ConfigureAction → Bool
  | .sizeWrite _ _ => true
  | _ => false

/-- `p` occurs strictly before `q` in the trace `tr`. -/
def occursBefore (p q : ConfigureAction → Bool) (tr : List ConfigureAction) : Prop :=
  ∃ i j : Fin tr.length, i < j ∧ p (tr.get i) = true ∧ q (tr.get j) = true

instance (p q : ConfigureAction → Bool) (tr : List ConfigureAction) :
    Decidable (occursBefore p q tr) := by
  unfold occursBefore
  infer_instance

/-- **C2 (counterexample).** On configure (serial 1, 800×600) for a
registered view the handler performs exactly one metrics update and exactly
one stored-size mutation, but the size mutation does *not* happen before the
acknowledgment: the trace is metrics update, then ack, then size write, so
the claim's "both happen before the configure event is acknowledged" fails. -/
theorem configure_nonzero_cex :
    (configureHandler 1 800 600 0 true ⟨1600, 900, false⟩).1 =
      [.metricsUpdate 800 600 0, .ackConfigure 1, .sizeWrite 800 600] ∧
    occursBefore isMetricsUpdate isAckConfigure
      (configureHandler 1 800 600 0 true ⟨1600, 900, false⟩).1 ∧
    ¬ occursBefore isSizeWrite isAckConfigure
      (configureHandler 1 800 600 0 true ⟨1600, 900, false⟩).1 := by
  refine ⟨by decide, by decide, by decide⟩

/-- **C2 (amended).** For every configure notification with nonzero width and
height on a registered view whose metrics update succeeds, the handler
performs exactly one window-metrics update and exactly one mutation of the
view's stored size, in that order; the metrics update happens before the
configure is acknowledged, and the stored-size mutation happens after the
acknowledgment. -/
theorem configure_nonzero (serial width height : Nat) (viewId : Int) (v : ViewSize)
    (hw : width ≠ 0) (hh : height ≠ 0) :
    (configureHandler serial width height viewId true v).1 =
      [.metricsUpdate width height viewId, .ackConfigure serial, .sizeWrite width height] ∧
    ((configureHandler serial width height viewId true v).1.countP
        (fun a => isMetricsUpdate a) = 1 ∧
      (configureHandler serial width height viewId true v).1.countP
        (fun a => isSizeWrite a) = 1) ∧
    occursBefore isMetricsUpdate isSizeWrite
      (configureHandler serial width height viewId true v).1 ∧
    occursBefore isMetricsUpdate isAckConfigure
      (configureHandler serial width height viewId true v).1 ∧
    occursBefore isAckConfigure isSizeWrite
      (configureHandler serial width height viewId true v).1 ∧
    (configureHandler serial width height viewId true v).2 =
      { width := width, height := height, shouldResize := true } := by
  have htr : (configureHandler serial width height viewId true v).1 =
      [.metricsUpdate width height viewId, .ackConfigure serial, .sizeWrite width height] := by
    simp [configureHandler, hw, hh]
  refine ⟨htr, ⟨by rw [htr]; simp [isMetricsUpdate], by rw [htr]; simp [isSizeWrite]⟩,
    ?_, ?_, ?_, by simp [configureHandler, hw, hh]⟩
  · rw [htr]
    exact ⟨⟨0, by simp⟩, ⟨2, by simp⟩, by simp, rfl, rfl⟩
  · rw [htr]
    exact ⟨⟨0, by simp⟩, ⟨1, by simp⟩, by simp, rfl, rfl⟩
  · rw [htr]
    exact ⟨⟨1, by simp⟩, ⟨2, by simp⟩, by simp, rfl, rfl⟩

/-- Witness for `configure_nonzero`: the spec's end-to-end scenario,
configure view 0 with 800×600. -/
theorem configure_nonzero_witness :
    ((800 : Nat) ≠ 0 ∧ (600 : Nat) ≠ 0) ∧
    (configureHandler 7 800 600 0 true ⟨1600, 900, false⟩).1 =
      [.metricsUpdate 800 600 0, .ackConfigure 7, .sizeWrite 800 600] ∧
    ((configureHandler 7 800 600 0 true ⟨1600, 900, false⟩).1.countP
        (fun a => isMetricsUpdate a) = 1 ∧
      (configureHandler 7 800 600 0 true ⟨1600, 900, false⟩).1.countP
        (fun a => isSizeWrite a) = 1) ∧
    (configureHandler 7 800 600 0 true ⟨1600, 900, false⟩).2 =
      { width := 800, height := 600, shouldResize := true } :=
  ⟨⟨by decide, by decide⟩,
   (configure_nonzero 7 800 600 0 ⟨1600, 900, false⟩ (by decide) (by decide)).1,
   (configure_nonzero 7 800 600 0 ⟨1600, 900, false⟩ (by decide) (by decide)).2.1,
   (configure_nonzero 7 800 600 0 ⟨1600, 900, false⟩ (by decide) (by decide)).2.2.2.2.2⟩

/-- **C7.** A configure notification with zero width or zero height is
ignored: no metrics update is sent, nothing is acknowledged, and the stored
size and should-resize flag are untouched. -/
theorem configure_zero_ignored (serial width height : Nat) (viewId : Int)
    (engineOk : Bool) (v : ViewSize) (h : width = 0 ∨ height = 0) :
    configureHandler serial width height viewId engineOk v = ([], v) := by
  have : ¬ (width ≠ 0 ∧ height ≠ 0) := by
    rcases h with h | h <;> simp [h]
  simp [configureHandler, this]

/-- Witness for `configure_zero_ignored`: the spec's end-to-end scenario,
configure view 0 with (0, 0). -/
theorem configure_zero_ignored_witness :
    ((0 : Nat) = 0 ∨ (0 : Nat) = 0) ∧
    configureHandler 3 0 0 0 true ⟨1600, 900, false⟩ = ([], ⟨1600, 900, false⟩) :=
  ⟨Or.inl rfl, configure_zero_ignored 3 0 0 0 true ⟨1600, 900, false⟩ (Or.inl rfl)⟩

/-! ## Render pipeline (`src/compositor/callback.rs`) -/

/-- Model of Rust `f64::to_int_unchecked::<i32>` on an engine-supplied
floating-point value, here represented as a rational: Rust's semantics is
truncation toward zero (for values representable in the target type), which
for `q = num/den` in lowest terms with `den > 0` is the T-division of the
numerator by the denominator. -/
def toIntUnchecked (q : ℚ) : Int := Int.tdiv q.num (q.den : Int)

/-- Truncation toward zero on rationals, the spec-level notion: floor for
nonnegative values, ceiling for negative ones. -/
def truncTowardZero (q : ℚ) : Int := if 0 ≤ q then ⌊q⌋ else ⌈q⌉

/-- The shader program and pre-built quad geometry handles of `OpenGLState`
used by `present_view_callback`. -/
structure OpenGLHandles where
  program : Nat
  vertexArray : Nat
  vertexBuffer : Nat
deriving DecidableEq

/-- Content of one `FlutterLayer`: a backing store (carrying the framebuffer,
color-texture and depth/stencil-renderbuffer names round-tripped through the
opaque `user_data` token) or a platform view. -/
inductive LayerContent where
  | backingStore (framebuffer texture renderbuffer : Nat)
  | platformView (identifier : Int)
deriving DecidableEq

/-- One compositor layer passed to `present_view_callback`: content plus the
engine-supplied floating-point offset and size and the presentation
timestamp. -/
structure FlutterLayer where
  content : LayerContent
  offsetX : ℚ
  offsetY : ℚ
  width : ℚ
  height : ℚ
  presentationTime : Nat
deriving DecidableEq

/-- Observable actions of `present_view_callback`, in program order. -/
inductive PresentAction where
  | warnViewNotFound (viewId : Int)
  | resizeSurface (width height : Nat)
  | makeCurrent
  | logLayer (offsetX offsetY width height : Int) (presentationTime : Nat)
  | saveBindings
  | bindDefaultFramebuffer
  | drawBufferBack
  | bindVertexArray (n : Nat)
  | bindArrayBuffer (n : Nat)
  | bindTexture (n : Nat)
  | useProgram (n : Nat)
  | drawArrays
  | swapBuffers
  | restoreBindings
  | warnPlatformView (identifier : Int)
  | makeNotCurrent
  | terminateSent
deriving DecidableEq

/-- Actions that touch the GPU (surface resize, context binding, GL state
changes, draws, swaps), as opposed to log lines and the fatal-error
channel. -/
def isGpuAction : PresentAction → Bool
  | .warnViewNotFound _ => false
  | .logLayer _ _ _ _ _ => false
  | .warnPlatformView _ => false
  | .terminateSent => false
  | _ => true

/-- The view registry of `Compositor` (`HashMap<ViewId, FlutterView>`),
restricted to the per-view stored size the present path reads. -/
def lookupView (reg : List (Int × ViewSize)) (viewId : Int) : Option ViewSize :=
  (reg.find? (fun p => p.1 = viewId)).map (fun p => p.2)

/-- The view registry immediately after a successful `Compositor::init`: the
single implicit view, id 0, with stored size 1600×900 and the should-resize
flag cleared. -/
def compositorInitViews : List (Int × ViewSize) :=
  [(0, { width := 1600, height := 900, shouldResize := false })]

/-- The body of the per-layer loop of `present_view_callback` for one layer:
the offset/size log line (with `to_int_unchecked` conversions), then for a
backing-store layer the save-bindings block, default-framebuffer and
back-buffer selection, quad setup, texture bind, draw, buffer swap (whose
failure, modelled by `swapOk = false`, sends the fatal error and aborts the
callback) and bindings restore; a platform-view layer is logged and
ignored.  Returns the actions and whether the loop continues. -/
def presentLayer (gls : OpenGLHandles) (swapOk : Bool) (layer : FlutterLayer) :
    List PresentAction × Bool :=
  let logAct := PresentAction.logLayer (toIntUnchecked layer.offsetX)
    (toIntUnchecked layer.offsetY) (toIntUnchecked layer.width)
    (toIntUnchecked layer.height) layer.presentationTime
  match layer.content with
  | .backingStore _ texture _ =>
    let setup := [logAct, .saveBindings, .bindDefaultFramebuffer, .drawBufferBack,
      .bindVertexArray gls.vertexArray, .bindArrayBuffer gls.vertexBuffer,
      .bindTexture texture, .useProgram gls.program, .drawArrays]
    if swapOk then (setup ++ [.swapBuffers, .restoreBindings], true)
    else (setup ++ [.terminateSent], false)
  | .platformView identifier => ([logAct, .warnPlatformView identifier], true)

/-- The per-layer loop of `present_view_callback` over the engine-supplied
layer list, aborting after a failed buffer swap. -/
def presentLayers (gls : OpenGLHandles) (swapOk : Bool) :
    List FlutterLayer → List PresentAction × Bool
  | [] => ([], true)
  | l :: ls =>
    let p := presentLayer gls swapOk l
    if p.2 then
      let rest := presentLayers gls swapOk ls
      (p.1 ++ rest.1, rest.2)
    else (p.1, false)

/-- `present_view_callback`: resolve the view (unknown id: warn and return
false); read the stored size under the guard and resize the EGL window
surface to it; make the render context current on the view's surface
(failure, `makeCurrentOk = false`, sends the fatal error and returns false);
run the per-layer loop; make the context not current (failure likewise);
return true.  Produces the result and the action trace. -/
def presentView (reg : List (Int × ViewSize)) (gls : OpenGLHandles) (viewId : Int)
    (layers : List FlutterLayer) (makeCurrentOk swapOk makeNotCurrentOk : Bool) :
    Bool × List PresentAction :=
  match lookupView reg viewId with
  | none => (false, [.warnViewNotFound viewId])
  | some v =>
    let acts0 := [PresentAction.resizeSurface v.width v.height]
    if makeCurrentOk then
      let p := presentLayers gls swapOk layers
      if p.2 then
        if makeNotCurrentOk then
          (true, acts0 ++ [.makeCurrent] ++ p.1 ++ [.makeNotCurrent])
        else (false, acts0 ++ [.makeCurrent] ++ p.1 ++ [.terminateSent])
      else (false, acts0 ++ [.makeCurrent] ++ p.1)
    else (false, acts0 ++ [.terminateSent])

/-- GL object namespaces visible to the backing-store callbacks: one name
counter and one allocation list per object kind (framebuffers, textures,
renderbuffers have separate GL name spaces). -/
structure GpuState where
  nextFramebuffer : Nat
  nextTexture : Nat
  nextRenderbuffer : Nat
  framebuffers : List Nat
  textures : List Nat
  renderbuffers : List Nat
deriving DecidableEq

/-- Observable actions of the backing-store create/collect callbacks. -/
inductive BackingAction where
  | terminateSent
  | makeCurrentNoSurface
  | genFramebuffer (n : Nat)
  | genTexture (n : Nat)
  | texImage2D (width height : Int)
  | genRenderbuffer (n : Nat)
  | renderbufferStorage (width height : Int)
  | makeNotCurrent
  | deleteFramebuffer (n : Nat)
  | deleteTexture (n : Nat)
  | deleteRenderbuffer (n : Nat)
deriving DecidableEq

/-- The opaque token `create_backing_store_callback` boxes into the
framebuffer's `user_data`: the three GL object names, retrieved and freed by
`collect_backing_store_callback`. -/
structure BackingStoreToken where
  framebuffer : Nat
  texture : Nat
  renderbuffer : Nat
deriving DecidableEq

/-- `create_backing_store_callback`: reject the request (fatal error, return
false) if the `FlutterBackingStore` ABI `struct_size` is below the expected
structure size, *before* any GPU work; otherwise convert the requested size
with `to_int_unchecked`, make the render context current without a surface
(`makeCurrentOk`), generate and attach a framebuffer, an RGBA8 color texture
and a depth/stencil renderbuffer, make the context not current
(`makeNotCurrentOk`), and on success hand the engine the token packaging the
three object names.  Returns (result, token, GPU state, actions). -/
def createBackingStore (structSize expectedSize : Nat) (width height : ℚ)
    (makeCurrentOk makeNotCurrentOk : Bool) (g : GpuState) :
    Bool × Option BackingStoreToken × GpuState × List BackingAction :=
  if structSize < expectedSize then (false, none, g, [.terminateSent])
  else
    let w := toIntUnchecked width
    let h := toIntUnchecked height
    if makeCurrentOk then
      let fb := g.nextFramebuffer
      let tex := g.nextTexture
      let rb := g.nextRenderbuffer
      let g1 : GpuState :=
        { nextFramebuffer := fb + 1, nextTexture := tex + 1, nextRenderbuffer := rb + 1,
          framebuffers := fb :: g.framebuffers, textures := tex :: g.textures,
          renderbuffers := rb :: g.renderbuffers }
      let acts := [BackingAction.makeCurrentNoSurface, .genFramebuffer fb, .genTexture tex,
        .texImage2D w h, .genRenderbuffer rb, .renderbufferStorage w h]
      if makeNotCurrentOk then
        (true, some ⟨fb, tex, rb⟩, g1, acts ++ [.makeNotCurrent])
      else (false, none, g1, acts ++ [.terminateSent])
    else (false, none, g, [.terminateSent])

/-- `collect_backing_store_callback`: make the render context current without
a surface, unbox the token, delete the framebuffer, the texture and the
renderbuffer, and make the context not current again. -/
def collectBackingStore (token : BackingStoreToken)
    (makeCurrentOk makeNotCurrentOk : Bool) (g : GpuState) :
    Bool × GpuState × List BackingAction :=
  if makeCurrentOk then
    let g1 : GpuState :=
      { g with framebuffers := g.framebuffers.erase token.framebuffer,
               textures := g.textures.erase token.texture,
               renderbuffers := g.renderbuffers.erase token.renderbuffer }
    let acts := [BackingAction.makeCurrentNoSurface, .deleteFramebuffer token.framebuffer,
      .deleteTexture token.texture, .deleteRenderbuffer token.renderbuffer]
    if makeNotCurrentOk then (true, g1, acts ++ [.makeNotCurrent])
    else (false, g1, acts ++ [.terminateSent])
  else (false, g, [.terminateSent])

/-! ### Claim theorems about the render pipeline -/

/-- **C4.** Presenting a frame for a view identifier that is not in the
compositor's registry returns false ("not handled") with only the warning
log line: no surface resize, no context binding, no draw call, no buffer
swap — no GPU action at all. -/
theorem present_unknown_view (reg : List (Int × ViewSize)) (gls : OpenGLHandles)
    (viewId : Int) (layers : List FlutterLayer) (mc so mn : Bool)
    (h : lookupView reg viewId = none) :
    presentView reg gls viewId layers mc so mn =
      (false, [.warnViewNotFound viewId]) ∧
    (presentView reg gls viewId layers mc so mn).2.filter
      (fun a => isGpuAction a) = [] := by
  have h1 : presentView reg gls viewId layers mc so mn =
      (false, [.warnViewNotFound viewId]) := by
    simp [presentView, h]
  exact ⟨h1, by rw [h1]; simp [isGpuAction]⟩

/-- Witness for `present_unknown_view`: the spec's end-to-end scenario,
presenting view id 5 when only view id 0 is registered. -/
theorem present_unknown_view_witness :
    lookupView compositorInitViews 5 = none ∧
    (presentView compositorInitViews ⟨1, 2, 3⟩ 5 [] true true true =
        (false, [.warnViewNotFound 5]) ∧
      (presentView compositorInitViews ⟨1, 2, 3⟩ 5 [] true true true).2.filter
        (fun a => isGpuAction a) = []) :=
  ⟨by decide,
   present_unknown_view compositorInitViews ⟨1, 2, 3⟩ 5 [] true true true (by decide)⟩

/-- **C10.** Presenting a registered view with an empty layer list returns
true and performs no draw call and no buffer swap, while still resizing the
view's surface to its stored size and binding then unbinding the render
context. -/
theorem present_empty_layers (reg : List (Int × ViewSize)) (gls : OpenGLHandles)
    (viewId : Int) (v : ViewSize) (swapOk : Bool)
    (h : lookupView reg viewId = some v) :
    presentView reg gls viewId [] true swapOk true =
      (true, [.resizeSurface v.width v.height, .makeCurrent, .makeNotCurrent]) ∧
    ∀ a ∈ (presentView reg gls viewId [] true swapOk true).2,
      a ≠ PresentAction.drawArrays ∧ a ≠ PresentAction.swapBuffers := by
  have h1 : presentView reg gls viewId [] true swapOk true =
      (true, [.resizeSurface v.width v.height, .makeCurrent, .makeNotCurrent]) := by
    simp [presentView, h, presentLayers]
  refine ⟨h1, ?_⟩
  rw [h1]
  intro a ha
  rcases List.mem_cons.mp ha with rfl | ha
  · exact ⟨by simp, by simp⟩
  rcases List.mem_cons.mp ha with rfl | ha
  · exact ⟨by simp, by simp⟩
  rcases List.mem_cons.mp ha with rfl | ha
  · exact ⟨by simp, by simp⟩
  · simp at ha

/-- Witness for `present_empty_layers`: the implicit view right after
`Compositor::init`, presented with no layers. -/
theorem present_empty_layers_witness :
    lookupView compositorInitViews 0 = some ⟨1600, 900, false⟩ ∧
    presentView compositorInitViews ⟨1, 2, 3⟩ 0 [] true true true =
      (true, [.resizeSurface 1600 900, .makeCurrent, .makeNotCurrent]) ∧
    (PresentAction.makeCurrent ≠ PresentAction.drawArrays ∧
      PresentAction.makeCurrent ≠ PresentAction.swapBuffers) :=
  ⟨by decide,
   (present_empty_layers compositorInitViews ⟨1, 2, 3⟩ 0 ⟨1600, 900, false⟩ true
     (by decide)).1,
   (present_empty_layers compositorInitViews ⟨1, 2, 3⟩ 0 ⟨1600, 900, false⟩ true
     (by decide)).2 PresentAction.makeCurrent (by decide)⟩

/-- **C9.** After a successful `Compositor::init` the registry holds exactly
one view — the implicit view, id 0 — whose stored logical size is 1600×900
with the should-resize flag false; a present before any nonzero configure
event therefore resizes to (and draws at) 1600×900. -/
theorem compositorInit_implicit_view (gls : OpenGLHandles) :
    compositorInitViews.length = 1 ∧
    lookupView compositorInitViews 0 =
      some { width := 1600, height := 900, shouldResize := false } ∧
    (∀ p ∈ compositorInitViews, p.1 = 0) ∧
    presentView compositorInitViews gls 0 [] true true true =
      (true, [.resizeSurface 1600 900, .makeCurrent, .makeNotCurrent]) := by
  refine ⟨by decide, by decide, by decide, ?_⟩
  simp [presentView, lookupView, compositorInitViews, presentLayers]

/-- Witness for `compositorInit_implicit_view`: concrete GL handles and the
registry's only entry. -/
theorem compositorInit_implicit_view_witness :
    compositorInitViews.length = 1 ∧
    lookupView compositorInitViews 0 =
      some { width := 1600, height := 900, shouldResize := false } ∧
    ((0 : Int), ({ width := 1600, height := 900, shouldResize := false } : ViewSize)).1 = 0 ∧
    presentView compositorInitViews ⟨4, 5, 6⟩ 0 [] true true true =
      (true, [.resizeSurface 1600 900, .makeCurrent, .makeNotCurrent]) :=
  ⟨(compositorInit_implicit_view ⟨4, 5, 6⟩).1,
   (compositorInit_implicit_view ⟨4, 5, 6⟩).2.1,
   (compositorInit_implicit_view ⟨4, 5, 6⟩).2.2.1
     (0, { width := 1600, height := 900, shouldResize := false }) (by decide),
   (compositorInit_implicit_view ⟨4, 5, 6⟩).2.2.2⟩

/-- **C5.** A `create_backing_store` request whose declared `struct_size` is
below the expected `FlutterBackingStore` size is rejected before any GPU
work: the callback returns false with no token, sends the fatal error on the
termination channel, and the GPU state is untouched — no framebuffer,
texture or renderbuffer is generated. -/
theorem createBackingStore_undersized (structSize expectedSize : Nat)
    (width height : ℚ) (mc mn : Bool) (g : GpuState)
    (h : structSize < expectedSize) :
    createBackingStore structSize expectedSize width height mc mn g =
      (false, none, g, [.terminateSent]) := by
  simp [createBackingStore, h]

/-- Witness for `createBackingStore_undersized`: a 100-byte request against a
160-byte expected structure. -/
theorem createBackingStore_undersized_witness :
    (100 : Nat) < 160 ∧
    createBackingStore 100 160 0 0 true true ⟨0, 0, 0, [], [], []⟩ =
      (false, none, ⟨0, 0, 0, [], [], []⟩, [.terminateSent]) :=
  ⟨by decide,
   createBackingStore_undersized 100 160 0 0 true true ⟨0, 0, 0, [], [], []⟩ (by decide)⟩

/-- **C6.** A successful `create_backing_store` generates exactly a
framebuffer, a color texture and a depth/stencil renderbuffer, packaged in
the returned token; the immediately following `collect_backing_store` on the
same token deletes exactly those three objects, so every GL allocation list
returns to its pre-create contents — the pair leaves no GPU objects
allocated. -/
theorem create_collect_roundtrip (structSize expectedSize : Nat)
    (width height : ℚ) (g : GpuState) (hsz : expectedSize ≤ structSize) :
    createBackingStore structSize expectedSize width height true true g =
      (true, some ⟨g.nextFramebuffer, g.nextTexture, g.nextRenderbuffer⟩,
        { nextFramebuffer := g.nextFramebuffer + 1, nextTexture := g.nextTexture + 1,
          nextRenderbuffer := g.nextRenderbuffer + 1,
          framebuffers := g.nextFramebuffer :: g.framebuffers,
          textures := g.nextTexture :: g.textures,
          renderbuffers := g.nextRenderbuffer :: g.renderbuffers },
        [.makeCurrentNoSurface, .genFramebuffer g.nextFramebuffer,
         .genTexture g.nextTexture,
         .texImage2D (toIntUnchecked width) (toIntUnchecked height),
         .genRenderbuffer g.nextRenderbuffer,
         .renderbufferStorage (toIntUnchecked width) (toIntUnchecked height),
         .makeNotCurrent]) ∧
    collectBackingStore ⟨g.nextFramebuffer, g.nextTexture, g.nextRenderbuffer⟩
        true true
        { nextFramebuffer := g.nextFramebuffer + 1, nextTexture := g.nextTexture + 1,
          nextRenderbuffer := g.nextRenderbuffer + 1,
          framebuffers := g.nextFramebuffer :: g.framebuffers,
          textures := g.nextTexture :: g.textures,
          renderbuffers := g.nextRenderbuffer :: g.renderbuffers } =
      (true,
        { nextFramebuffer := g.nextFramebuffer + 1, nextTexture := g.nextTexture + 1,
          nextRenderbuffer := g.nextRenderbuffer + 1,
          framebuffers := g.framebuffers, textures := g.textures,
          renderbuffers := g.renderbuffers },
        [.makeCurrentNoSurface, .deleteFramebuffer g.nextFramebuffer,
         .deleteTexture g.nextTexture, .deleteRenderbuffer g.nextRenderbuffer,
         .makeNotCurrent]) := by
  constructor
  · simp [createBackingStore, Nat.not_lt.mpr hsz]
  · simp [collectBackingStore, List.erase_cons_head]

/-- Witness for `create_collect_roundtrip`: a fresh GPU state and a
well-sized request. -/
theorem create_collect_roundtrip_witness :
    (160 : Nat) ≤ 160 ∧
    (createBackingStore 160 160 0 0 true true ⟨0, 0, 0, [], [], []⟩ =
        (true, some ⟨0, 0, 0⟩,
          { nextFramebuffer := 1, nextTexture := 1, nextRenderbuffer := 1,
            framebuffers := [0], textures := [0], renderbuffers := [0] },
          [.makeCurrentNoSurface, .genFramebuffer 0, .genTexture 0,
           .texImage2D (toIntUnchecked 0) (toIntUnchecked 0), .genRenderbuffer 0,
           .renderbufferStorage (toIntUnchecked 0) (toIntUnchecked 0),
           .makeNotCurrent]) ∧
      collectBackingStore ⟨0, 0, 0⟩ true true
          { nextFramebuffer := 1, nextTexture := 1, nextRenderbuffer := 1,
            framebuffers := [0], textures := [0], renderbuffers := [0] } =
        (true,
          { nextFramebuffer := 1, nextTexture := 1, nextRenderbuffer := 1,
            framebuffers := [], textures := [], renderbuffers := [] },
          [.makeCurrentNoSurface, .deleteFramebuffer 0, .deleteTexture 0,
           .deleteRenderbuffer 0, .makeNotCurrent])) :=
  ⟨by decide,
   create_collect_roundtrip 160 160 0 0 ⟨0, 0, 0, [], [], []⟩ (by decide)⟩

/-! ### Numeric conversion (C8) -/

/-- The `to_int_unchecked` model agrees with truncation toward zero on every
rational: T-division of the numerator by the (positive) denominator is the
floor for nonnegative values and the ceiling for negative ones. -/
theorem toIntUnchecked_eq_truncTowardZero (q : ℚ) :
    toIntUnchecked q = truncTowardZero q := by
  unfold toIntUnchecked truncTowardZero
  by_cases h : 0 ≤ q
  · rw [if_pos h, Rat.floor_def]
    exact Int.tdiv_eq_ediv (Rat.num_nonneg.mpr h) (Int.ofNat_nonneg _)
  · rw [if_neg h]
    have hq : (0 : ℚ) ≤ -q := by linarith [lt_of_not_ge h]
    have h1 : ⌈q⌉ = -⌊-q⌋ := by rw [Int.floor_neg, neg_neg]
    rw [h1, Rat.floor_def, Rat.num_neg_eq_neg_num, Rat.neg_den]
    rw [← Int.tdiv_eq_ediv (by simpa using Rat.num_nonneg.mpr hq) (Int.ofNat_nonneg _)]
    rw [Int.neg_tdiv, neg_neg]

/-- **C8.** The integer pixel coordinates computed from the engine's
floating-point offsets and sizes — by `present_view_callback` for each
layer and by `create_backing_store_callback` for the requested size — are
obtained by truncation toward zero (floor for nonnegative, ceiling for
negative values), not by rounding to nearest: at 7/4 the pipeline produces
1 while rounding to nearest would give 2. -/
theorem layer_conversion_truncates :
    (∀ q : ℚ, toIntUnchecked q = truncTowardZero q) ∧
    (∀ (gls : OpenGLHandles) (fb tex rb : Nat) (ox oy w h : ℚ) (pt : Nat),
      (presentView compositorInitViews gls 0
          [⟨.backingStore fb tex rb, ox, oy, w, h, pt⟩] true true true).2 =
        [.resizeSurface 1600 900, .makeCurrent,
         .logLayer (truncTowardZero ox) (truncTowardZero oy)
           (truncTowardZero w) (truncTowardZero h) pt,
         .saveBindings, .bindDefaultFramebuffer, .drawBufferBack,
         .bindVertexArray gls.vertexArray, .bindArrayBuffer gls.vertexBuffer,
         .bindTexture tex, .useProgram gls.program, .drawArrays, .swapBuffers,
         .restoreBindings, .makeNotCurrent]) ∧
    (∀ (w h : ℚ) (g : GpuState),
      (createBackingStore 160 160 w h true true g).2.2.2 =
        [.makeCurrentNoSurface, .genFramebuffer g.nextFramebuffer,
         .genTexture g.nextTexture,
         .texImage2D (truncTowardZero w) (truncTowardZero h),
         .genRenderbuffer g.nextRenderbuffer,
         .renderbufferStorage (truncTowardZero w) (truncTowardZero h),
         .makeNotCurrent]) ∧
    truncTowardZero (7 / 4) = 1 ∧ round ((7 : ℚ) / 4) = 2 ∧
    truncTowardZero (-7 / 4) = -1 ∧ round ((-7 : ℚ) / 4) = -2 := by
  refine ⟨toIntUnchecked_eq_truncTowardZero, ?_, ?_, ?_, ?_, ?_, ?_⟩
  · intro gls fb tex rb ox oy w h pt
    simp [presentView, lookupView, compositorInitViews, presentLayers, presentLayer,
      toIntUnchecked_eq_truncTowardZero]
  · intro w h g
    simp [createBackingStore, toIntUnchecked_eq_truncTowardZero]
  · unfold truncTowardZero
    norm_num
  · rw [round_eq]; norm_num
  · unfold truncTowardZero
    rw [if_neg (by norm_num)]
    rw [show ((-7 : ℚ) / 4) = -(7 / 4) by ring, Int.ceil_neg]
    norm_num
  · rw [round_eq]; norm_num
